import Mathlib

/-!
Verification of the go-cryptocom exchange client (repository sngyai/go-cryptocom)
against its natural-language specification.

The development shallowly embeds the pure content of the Go source:
  * the JSON-like parameter values carried in request envelopes
    (`map[string]interface{}` in Go) as the inductive `JValue`;
  * the parameter canonicalization and signature payload of the signing
    protocol (package internal/auth, modelled from the spec — see the doc
    comments below);
  * the response classifier `Requester.CheckErrorResponse`
    (internal/api) together with the error taxonomy of the errors package;
  * the request envelope `api.Request` (internal/api/types.go) and the JSON
    field-emission behaviour of its struct tags;
  * the request-building flows of `Client.GetDepositHistory`,
    `Client.GetWithdrawalHistory`, `Client.CreateWithdrawal`,
    `Client.GetInstruments`, `Client.GetBook` and `Client.GetTickers`.

Go machine integers (int, int64) are embedded as `Int`; none of the embedded
operations overflow 64 bits on the inputs considered, and the only numeric
operations performed by the embedded code are comparisons and equality tests.
-/

/-- A JSON-like parameter value, embedding the dynamic values Go stores in a
`map[string]interface{}` params map: strings, integers, non-integral numbers
(Go `float64`, embedded as `Rat`; the embedded code only ever compares such a
value with `0` and passes it through, never computes with it), booleans,
null, nested mappings and arrays. -/
inductive JValue where
  | str (s : String)
  | int (n : Int)
  | num (q : Rat)
  | bool (b : Bool)
  | null
  | obj (fields : List (String × JValue))
  | arr (elems : List JValue)

/-- Lexicographic comparison of character lists by code point; on UTF-8
encoded strings this coincides with Go's bytewise comparison, since UTF-8
preserves code-point order. -/
def charListLe : List Char → List Char → Bool
  | [], _ => true
  | _ :: _, [] => false
  | a :: as, b :: bs =>
    if a.toNat < b.toNat then true
    else if b.toNat < a.toNat then false
    else charListLe as bs

/-- Bytewise ascending comparison of strings (see `charListLe`). -/
def strLeByte (a b : String) : Bool :=
  charListLe a.toList b.toList

/-- Insert a rendered (key, text) pair into a list sorted by key
(bytewise ascending). -/
def insertField (p : String × String) : List (String × String) → List (String × String)
  | [] => [p]
  | q :: rest => if strLeByte p.1 q.1 then p :: q :: rest else q :: insertField p rest

/-- Insertion sort of rendered (key, text) pairs by key, ascending. -/
def sortFields : List (String × String) → List (String × String)
  | [] => []
  | p :: rest => insertField p (sortFields rest)

mutual
/-- Modelled from the spec: the textual form a parameter value contributes to
the canonical parameter string (package internal/auth is not in the source
tree). Strings render as themselves, integers in plain decimal, booleans as
`true`/`false`; a nested mapping recurses with its keys sorted ascending and
each key immediately followed by its value's textual form with no separator;
an array concatenates its elements' forms in original order; `null` fields
are omitted entirely. -/
def canonValue : JValue → String
  | .str s => s
  | .int n => toString n
  | .num q => toString q
  | .bool b => cond b "true" "false"
  | .null => ""
  | .obj fields => String.join ((sortFields (renderFields fields)).map (fun p => p.1 ++ p.2))
  | .arr elems => canonElems elems

/-- Modelled from the spec: render each (key, value) pair of a mapping to
(key, textual form of value), dropping pairs whose value is `null`. -/
def renderFields : List (String × JValue) → List (String × String)
  | [] => []
  | (_, .null) :: rest => renderFields rest
  | (k, v) :: rest => (k, canonValue v) :: renderFields rest

/-- Modelled from the spec: concatenate the textual forms of an array's
elements in their original order. -/
def canonElems : List JValue → String
  | [] => ""
  | v :: rest => canonValue v ++ canonElems rest
end

/-- Modelled from the spec: the canonical parameter string of a params
mapping — canonicalization of the mapping viewed as an object. -/
def canonParams (fields : List (String × JValue)) : String :=
  canonValue (.obj fields)

/-- Modelled from the spec: the byte string the keyed-hash signature is
computed over (package internal/auth is not in the source tree) — the
concatenation `method ++ id ++ apiKey ++ canonicalParams ++ nonce`, each
field in its plain textual representation, with no delimiters. -/
def signaturePayload (method : String) (id : Int) (apiKey : String)
    (params : List (String × JValue)) (nonce : Int) : String :=
  method ++ toString id ++ apiKey ++ canonParams params ++ toString nonce

/-- The recognized exchange error kinds of the errors package (modelled; the
spec lists "illegal IP", "invalid parameter", "rate limit exceeded",
"insufficient balance" and the date-range violation as examples). -/
inductive ErrKind where
  | illegalIP
  | invalidParameter
  | rateLimitExceeded
  | insufficientBalance
  | invalidDateRange
  deriving DecidableEq

/-- Modelled from the spec: the fixed code → error-kind table of the errors
package (not in the source tree). The only entry pinned by the repository
itself is `10003 → ErrIllegalIP`, exercised by `TestClient_GetTickers_Error`
in getticker_test.go; all other codes are treated as unrecognized. -/
def errKindOfCode : Int → Option ErrKind
  | 10003 => some .illegalIP
  | _ => none

/-- The error wrapped inside a `ResponseError` (its `Err` field): either a
recognized sentinel (`errors.Is` against the sentinel succeeds), or the
`fmt.Errorf("invalid response code: %v", responseCode)` error produced when
the embedded code fails to parse, or no wrapped error at all. -/
inductive ErrCause where
  | wrapped (k : ErrKind)
  | invalidResponseCode (raw : String)
  | noErr
  deriving DecidableEq

/-- The `errors.ResponseError` value (fields observed in
getticker_test.go: `Code`, `HTTPStatusCode`, `Err`). -/
structure ResponseError where
  code : Int
  httpStatusCode : Int
  err : ErrCause
  deriving DecidableEq

/-- `errors.Is(e, sentinel-of-k)` for a `ResponseError`: holds exactly when
the wrapped error is the sentinel of kind `k` (behaviour pinned by
`TestClient_GetTickers_Error`, which requires `errors.Is(err, ErrIllegalIP)`
for code 10003). -/
def errorIsKind (e : ResponseError) (k : ErrKind) : Prop :=
  e.err = ErrCause.wrapped k

instance (e : ResponseError) (k : ErrKind) : Decidable (errorIsKind e k) := by
  unfold errorIsKind; infer_instance

/-- `strconv.ParseInt(s, 10, 64)` as used by `json.Number.Int64`: an optional
sign followed by at least one decimal digit, value within the signed 64-bit
range; anything else fails. -/
def parseInt64 (s : String) : Option Int :=
  let cs := s.toList
  let signDigits : Int × List Char :=
    match cs with
    | '-' :: rest => (-1, rest)
    | '+' :: rest => (1, rest)
    | _ => (1, cs)
  let sign := signDigits.1
  let digits := signDigits.2
  if digits.isEmpty || !digits.all Char.isDigit then none
  else
    let v : Int := sign * (digits.foldl (fun a c => a * 10 + (c.toNat - 48)) 0 : Nat)
    if -(2 ^ 63) ≤ v ∧ v ≤ 2 ^ 63 - 1 then some v else none

/-- `errors.NewResponseError(statusCode, code)` (modelled from the spec: a
recognized code wraps its sentinel so `errors.Is` can branch on it; an
unrecognized code still yields a typed `ResponseError` carrying the raw
numeric code and the HTTP status, never silently discarded). -/
def NewResponseError (statusCode : Int) (code : Int) : ResponseError :=
  { code := code
    httpStatusCode := statusCode
    err :=
      match errKindOfCode code with
      | some k => .wrapped k
      | none => .noErr }

/-- `Requester.CheckErrorResponse(statusCode, responseCode)`
(src/unnamed/part_001): for an HTTP status ≥ 400, parse the embedded
`json.Number` (embedded here as its string) with `Int64()`; on parse failure
return a `ResponseError` carrying only the HTTP status and the
invalid-response-code error (its `Code` field stays at its zero value),
otherwise return `NewResponseError(statusCode, code)`. For a status < 400
return nil (`none`), the response code is not inspected. -/
def CheckErrorResponse (statusCode : Int) (responseCode : String) : Option ResponseError :=
  if statusCode ≥ 400 then
    match parseInt64 responseCode with
    | none => some { code := 0, httpStatusCode := statusCode,
                     err := .invalidResponseCode responseCode }
    | some code => some (NewResponseError statusCode code)
  else
    none

/-- The request envelope `api.Request` (src/internal/api/types.go). The Go
`Params` field is a `map[string]interface{}`, embedded as an association
list with distinct keys; `none` embeds a nil map. -/
structure Request where
  id : Int
  method : String
  nonce : Int
  params : Option (List (String × JValue))
  signature : String
  apiKey : String
  version : String

/-- The JSON keys `encoding/json` emits when marshalling an `api.Request`,
per the struct tags of src/internal/api/types.go: `id`, `method`, `nonce`
and `params` are unconditional; `sig` and `api_key` carry `omitempty`, so
for these string fields the key is emitted exactly when the value is
non-empty; `version` has no `omitempty` and is always emitted. -/
def Request.serializedKeys (r : Request) : List String :=
  ["id", "method", "nonce", "params"] ++
    (if r.signature = "" then [] else ["sig"]) ++
    (if r.apiKey = "" then [] else ["api_key"]) ++
    ["version"]

/-- Association-list lookup, embedding `params[key]` on the Go params map
(the embedded flows only ever insert distinct keys). -/
def lookupParam (k : String) : List (String × JValue) → Option JValue
  | [] => none
  | (k₀, v) :: rest => if k₀ = k then some v else lookupParam k rest


/-- Method constant of src/getdeposithistory.go. -/
def methodGetDepositHistory : String := "private/get-deposit-history"

/-- Method constant of src/getwithdrawalhistory.go. -/
def methodGetWithdrawalHistory : String := "private/get-withdrawal-history"

/-- Method constant of src/unnamed/part_004 (create-withdrawal). -/
def methodCreateWithdrawal : String := "private/create-withdrawal"

/-- Method constant of src/getinstruments.go. -/
def methodGetInstruments : String := "public/get-instruments"

/-- Method constant of src/unnamed/part_003 (get-book). -/
def methodGetBook : String := "public/get-book"

/-- Method constant of src/unnamed/part_000 (get-tickers). -/
def methodGetTickers : String := "public/get-tickers"

/-- The `auth.SignatureRequest` handed to the signature generator. -/
structure SignatureRequest where
  apiKey : String
  secretKey : String
  id : Int
  method : String
  timestamp : Int
  params : List (String × JValue)

/-- The `errors.InvalidParameterError` value (fields used throughout the
source: `Parameter`, `Reason`). -/
structure InvalidParameterError where
  parameter : String
  reason : String

/-- Outcome of building a private request: either a pre-flight
`InvalidParameterError` — returned before the id generator, the clock, the
signature generator or the transport are consulted, so it carries no
envelope and corresponds to zero network calls — or the pair of the
`SignatureRequest` handed to the signature generator and the `api.Request`
body handed to the transport. -/
inductive BuildOutcome where
  | preflight (err : InvalidParameterError)
  | send (sigReq : SignatureRequest) (body : Request)

/-- `GetDepositHistoryRequest` (src/getdeposithistory.go). The Go
`time.Time` fields are embedded as `Option Int`: `none` is the zero time
(`IsZero()` true) and `some t` a time with `UnixMilli() = t`. -/
structure GetDepositHistoryRequest where
  currency : String
  startTs : Option Int
  endTs : Option Int
  pageSize : Int
  page : Int
  status : String

/-- The params map built by `Client.GetDepositHistory` (src/getdeposithistory.go
lines 95–110): `currency`, `page_size`, `start_ts`, `end_ts` and `status`
are inserted only when the request field is non-empty / non-zero, while
`page` is always inserted. -/
def depositHistoryParams (req : GetDepositHistoryRequest) : List (String × JValue) :=
  (if req.currency ≠ "" then [("currency", JValue.str req.currency)] else []) ++
  (if req.pageSize ≠ 0 then [("page_size", JValue.int req.pageSize)] else []) ++
  (match req.startTs with
   | some t => [("start_ts", JValue.int t)]
   | none => []) ++
  (match req.endTs with
   | some t => [("end_ts", JValue.int t)]
   | none => []) ++
  [("page", JValue.int req.page)] ++
  (if req.status ≠ "" then [("status", JValue.str req.status)] else [])

/-- The request-building flow of `Client.GetDepositHistory`
(src/getdeposithistory.go): validate `PageSize` first (before id generation,
signing or any network call), then build the params map, hand it with id,
method, timestamp and the credentials to the signature generator (`sigGen`,
the injectable `auth.SignatureGenerator`), and assemble the `api.Request`
body from the same values plus the returned signature. -/
def getDepositHistoryFlow (apiKey secretKey : String) (id nonce : Int)
    (sigGen : SignatureRequest → String) (req : GetDepositHistoryRequest) : BuildOutcome :=
  if req.pageSize < 0 then
    .preflight { parameter := "req.PageSize", reason := "cannot be less than 0" }
  else if req.pageSize > 200 then
    .preflight { parameter := "req.PageSize", reason := "cannot be greater than 200" }
  else
    let params := depositHistoryParams req
    let sigReq : SignatureRequest :=
      { apiKey := apiKey, secretKey := secretKey, id := id,
        method := methodGetDepositHistory, timestamp := nonce, params := params }
    .send sigReq
      { id := id, method := methodGetDepositHistory, nonce := nonce,
        params := some params, signature := sigGen sigReq, apiKey := apiKey,
        version := "" }

/-- `GetWithdrawalHistoryRequest` (src/getwithdrawalhistory.go); same
embedding conventions as `GetDepositHistoryRequest`. -/
structure GetWithdrawalHistoryRequest where
  currency : String
  startTs : Option Int
  endTs : Option Int
  pageSize : Int
  page : Int
  status : String

/-- The params map built by `Client.GetWithdrawalHistory`
(src/getwithdrawalhistory.go lines 98–113); identical shape to
`depositHistoryParams`. -/
def withdrawalHistoryParams (req : GetWithdrawalHistoryRequest) : List (String × JValue) :=
  (if req.currency ≠ "" then [("currency", JValue.str req.currency)] else []) ++
  (if req.pageSize ≠ 0 then [("page_size", JValue.int req.pageSize)] else []) ++
  (match req.startTs with
   | some t => [("start_ts", JValue.int t)]
   | none => []) ++
  (match req.endTs with
   | some t => [("end_ts", JValue.int t)]
   | none => []) ++
  [("page", JValue.int req.page)] ++
  (if req.status ≠ "" then [("status", JValue.str req.status)] else [])

/-- The request-building flow of `Client.GetWithdrawalHistory`
(src/getwithdrawalhistory.go); identical shape to `getDepositHistoryFlow`. -/
def getWithdrawalHistoryFlow (apiKey secretKey : String) (id nonce : Int)
    (sigGen : SignatureRequest → String) (req : GetWithdrawalHistoryRequest) : BuildOutcome :=
  if req.pageSize < 0 then
    .preflight { parameter := "req.PageSize", reason := "cannot be less than 0" }
  else if req.pageSize > 200 then
    .preflight { parameter := "req.PageSize", reason := "cannot be greater than 200" }
  else
    let params := withdrawalHistoryParams req
    let sigReq : SignatureRequest :=
      { apiKey := apiKey, secretKey := secretKey, id := id,
        method := methodGetWithdrawalHistory, timestamp := nonce, params := params }
    .send sigReq
      { id := id, method := methodGetWithdrawalHistory, nonce := nonce,
        params := some params, signature := sigGen sigReq, apiKey := apiKey,
        version := "" }

/-- `CreateWithdrawalRequest` (src/unnamed/part_004). The Go `float64`
amount is embedded as `Rat`; the flow only compares it with 0 and passes it
through. -/
structure CreateWithdrawalRequest where
  currency : String
  amount : Rat
  address : String
  clientWid : String
  addressTag : String
  networkId : String

/-- The params map built by `Client.CreateWithdrawal`
(src/unnamed/part_004 lines 72–90): every field is inserted only when
non-empty / non-zero. -/
def createWithdrawalParams (req : CreateWithdrawalRequest) : List (String × JValue) :=
  (if req.currency ≠ "" then [("currency", JValue.str req.currency)] else []) ++
  (if req.clientWid ≠ "" then [("client_wid", JValue.str req.clientWid)] else []) ++
  (if req.amount ≠ 0 then [("amount", JValue.num req.amount)] else []) ++
  (if req.address ≠ "" then [("address", JValue.str req.address)] else []) ++
  (if req.addressTag ≠ "" then [("address_tag", JValue.str req.addressTag)] else []) ++
  (if req.networkId ≠ "" then [("network_id", JValue.str req.networkId)] else [])

/-- The request-building flow of `Client.CreateWithdrawal`
(src/unnamed/part_004): no pre-flight validation; build the params map, sign,
and assemble the body from the same id, method, timestamp, params and api
key that entered the signature. Returns the `SignatureRequest` handed to the
signature generator together with the transmitted `api.Request` body. -/
def createWithdrawalFlow (apiKey secretKey : String) (id nonce : Int)
    (sigGen : SignatureRequest → String) (req : CreateWithdrawalRequest) :
    SignatureRequest × Request :=
  let params := createWithdrawalParams req
  let sigReq : SignatureRequest :=
    { apiKey := apiKey, secretKey := secretKey, id := id,
      method := methodCreateWithdrawal, timestamp := nonce, params := params }
  (sigReq,
   { id := id, method := methodCreateWithdrawal, nonce := nonce,
     params := some params, signature := sigGen sigReq, apiKey := apiKey,
     version := "" })

/-- The HTTP exchange a public endpoint performs: HTTP method, URL query
parameters, and the request body (`none` embeds a nil body; `some r` a
JSON-marshalled `api.Request`). -/
structure WireRequest where
  httpMethod : String
  query : List (String × String)
  body : Option Request

/-- The wire request issued by `Client.GetInstruments`
(src/getinstruments.go): it builds an `api.Request` holding only id, method
and nonce (params nil, no signature, no api key) and hands it to
`Requester.Get`, which JSON-marshals it and sends it as the body of a GET
(src/unnamed/part_001, `doRequest`); no query parameters are set. -/
def getInstrumentsWire (id nonce : Int) : WireRequest :=
  { httpMethod := "GET"
    query := []
    body := some
      { id := id, method := methodGetInstruments, nonce := nonce,
        params := none, signature := "", apiKey := "", version := "" } }

/-- The wire request issued by `Client.GetBook` (src/unnamed/part_003): a
plain GET with a nil body; `instrument_name` is always added to the query
and `depth` only when positive. -/
def getBookWire (instrument : String) (depth : Int) : WireRequest :=
  { httpMethod := "GET"
    query := [("instrument_name", instrument)] ++
      (if depth > 0 then [("depth", toString depth)] else [])
    body := none }

/-- The wire request issued by `Client.GetTickers` (src/unnamed/part_000): a
plain GET with a nil body; `instrument_name` is added to the query only when
the instrument is non-empty. -/
def getTickersWire (instrument : String) : WireRequest :=
  { httpMethod := "GET"
    query := if instrument ≠ "" then [("instrument_name", instrument)] else []
    body := none }

/-- C7: for every HTTP status < 400, `CheckErrorResponse` reports success
(returns nil) regardless of the embedded response code — a non-zero or even
unparseable code combined with a 2xx/3xx status is success; the response
code is never inspected. -/
theorem checkErrorResponse_success_below_400 (s : Int) (rc : String) (h : s < 400) :
    CheckErrorResponse s rc = none := by
  unfold CheckErrorResponse
  rw [if_neg (by omega)]

theorem checkErrorResponse_success_below_400_witness :
    (200 : Int) < 400 ∧ CheckErrorResponse 200 "10003" = none :=
  ⟨by norm_num, checkErrorResponse_success_below_400 200 "10003" (by norm_num)⟩

/-- The classifier never inspects the response code below HTTP 400, so the
claim "classification succeeds exactly when httpStatus < 400 and
responseCode is 0 or absent" fails: at HTTP status 200 with response code
"10003" (non-zero and present) classification still reports success. -/
theorem c2_counterexample :
    CheckErrorResponse 200 "10003" = none ∧
      parseInt64 "10003" = some 10003 ∧ (10003 : Int) ≠ 0 :=
  ⟨by decide, by decide, by decide⟩

/-- C2 (amended): classification succeeds exactly when httpStatus < 400 (the
response code is not inspected in that case); when httpStatus ≥ 400 and the
response code parses as an integer it returns the typed `ResponseError`
produced by `NewResponseError`, which preserves both the raw numeric code
and the HTTP status (unrecognized codes included, never silently
discarded). -/
theorem checkErrorResponse_classification (s : Int) (rc : String) :
    (CheckErrorResponse s rc = none ↔ s < 400) ∧
      (400 ≤ s → ∀ c : Int, parseInt64 rc = some c →
        CheckErrorResponse s rc = some (NewResponseError s c) ∧
          (NewResponseError s c).code = c ∧ (NewResponseError s c).httpStatusCode = s) := by
  constructor
  · unfold CheckErrorResponse
    by_cases h : s ≥ 400
    · rw [if_pos h]
      cases hp : parseInt64 rc <;> simp <;> omega
    · rw [if_neg h]
      simp
      omega
  · intro hs c hc
    refine ⟨?_, rfl, rfl⟩
    unfold CheckErrorResponse
    rw [if_pos (by omega), hc]

theorem checkErrorResponse_classification_witness :
    CheckErrorResponse 418 "10003" = some (NewResponseError 418 10003) ∧
      (NewResponseError 418 10003).code = 10003 ∧
      (NewResponseError 418 10003).httpStatusCode = 418 :=
  (checkErrorResponse_classification 418 "10003").2 (by norm_num) 10003 (by decide)

/-- C4: for every HTTP status ≥ 400 whose embedded response code does not
parse as an integer, the classifier returns the invalid-response-code
failure, which carries the HTTP status but wraps no recognized business
error kind (no sentinel check succeeds on it), and which is distinct from
success. -/
theorem checkErrorResponse_unparseable_code (s : Int) (rc : String)
    (hs : 400 ≤ s) (hp : parseInt64 rc = none) :
    CheckErrorResponse s rc =
        some { code := 0, httpStatusCode := s, err := .invalidResponseCode rc } ∧
      (∀ k : ErrKind,
        ¬ errorIsKind { code := 0, httpStatusCode := s, err := .invalidResponseCode rc } k) ∧
      CheckErrorResponse s rc ≠ none := by
  have hmain : CheckErrorResponse s rc =
      some { code := 0, httpStatusCode := s, err := .invalidResponseCode rc } := by
    unfold CheckErrorResponse
    rw [if_pos (by omega), hp]
  refine ⟨hmain, fun k => ?_, by rw [hmain]; simp⟩
  unfold errorIsKind
  simp

theorem checkErrorResponse_unparseable_code_witness :
    CheckErrorResponse 500 "abc" =
        some { code := 0, httpStatusCode := 500, err := .invalidResponseCode "abc" } ∧
      (∀ k : ErrKind,
        ¬ errorIsKind { code := 0, httpStatusCode := 500, err := .invalidResponseCode "abc" } k) ∧
      CheckErrorResponse 500 "abc" ≠ none :=
  checkErrorResponse_unparseable_code 500 "abc" (by norm_num) (by decide)

/-- C9: every recognized error kind is distinguishable from the returned
error by the sentinel check: when the status is ≥ 400 and the parsed code is
in the code → kind table, the returned `ResponseError` satisfies
`errorIsKind` for that kind while still carrying the raw numeric code and
the HTTP status. -/
theorem checkErrorResponse_sentinel (s : Int) (rc : String) (c : Int) (k : ErrKind)
    (hs : 400 ≤ s) (hp : parseInt64 rc = some c) (hk : errKindOfCode c = some k) :
    CheckErrorResponse s rc = some (NewResponseError s c) ∧
      errorIsKind (NewResponseError s c) k ∧
      (NewResponseError s c).code = c ∧ (NewResponseError s c).httpStatusCode = s := by
  refine ⟨?_, ?_, rfl, rfl⟩
  · unfold CheckErrorResponse
    rw [if_pos (by omega), hp]
  · unfold errorIsKind NewResponseError
    simp [hk]

theorem checkErrorResponse_sentinel_witness :
    CheckErrorResponse 418 "10003" = some (NewResponseError 418 10003) ∧
      errorIsKind (NewResponseError 418 10003) .illegalIP ∧
      (NewResponseError 418 10003).code = 10003 ∧
      (NewResponseError 418 10003).httpStatusCode = 418 :=
  checkErrorResponse_sentinel 418 "10003" 10003 .illegalIP (by norm_num) (by decide) (by decide)

/-- C8: in the serialized request envelope, `sig` and `api_key` are emitted
exactly when their values are non-empty, `version` is always emitted even
when empty, and `id`, `method`, `nonce` and `params` are always emitted. -/
theorem request_serialized_keys (r : Request) :
    "id" ∈ r.serializedKeys ∧ "method" ∈ r.serializedKeys ∧
      "nonce" ∈ r.serializedKeys ∧ "params" ∈ r.serializedKeys ∧
      "version" ∈ r.serializedKeys ∧
      ("sig" ∈ r.serializedKeys ↔ r.signature ≠ "") ∧
      ("api_key" ∈ r.serializedKeys ↔ r.apiKey ≠ "") := by
  by_cases hs : r.signature = "" <;> by_cases ha : r.apiKey = "" <;>
    simp [Request.serializedKeys, hs, ha]

/-- The claim "every public endpoint call sends no request body" fails on
`GetInstruments`: at id 1 and nonce 2 its wire request carries a JSON body
(the marshalled `api.Request`), not a nil body. -/
theorem c5_counterexample : (getInstrumentsWire 1 2).body ≠ none := by
  simp [getInstrumentsWire]

/-- C5 (amended): `GetBook` and `GetTickers` are GETs carrying their
parameters in the URL query with a nil body; `GetInstruments` is a GET whose
body is the JSON-marshalled envelope holding only id, method and nonce
(params nil); none of the three computes a signature or sends `sig` /
`api_key`. -/
theorem public_endpoint_wire (instrument : String) (depth id nonce : Int) :
    (getBookWire instrument depth).httpMethod = "GET" ∧
      (getBookWire instrument depth).body = none ∧
      (getTickersWire instrument).httpMethod = "GET" ∧
      (getTickersWire instrument).body = none ∧
      (getInstrumentsWire id nonce).httpMethod = "GET" ∧
      (getInstrumentsWire id nonce).body =
        some { id := id, method := methodGetInstruments, nonce := nonce,
               params := none, signature := "", apiKey := "", version := "" } :=
  ⟨rfl, rfl, rfl, rfl, rfl, rfl⟩

/-- Key-by-key content of the params map built by `GetDepositHistory`:
`page` is always present, every other key exactly when its request field is
non-empty / non-zero. -/
theorem depositHistoryParams_lookup (req : GetDepositHistoryRequest) :
    lookupParam "page" (depositHistoryParams req) = some (JValue.int req.page) ∧
      lookupParam "currency" (depositHistoryParams req) =
        (if req.currency = "" then none else some (JValue.str req.currency)) ∧
      lookupParam "page_size" (depositHistoryParams req) =
        (if req.pageSize = 0 then none else some (JValue.int req.pageSize)) ∧
      lookupParam "start_ts" (depositHistoryParams req) = req.startTs.map JValue.int ∧
      lookupParam "end_ts" (depositHistoryParams req) = req.endTs.map JValue.int ∧
      lookupParam "status" (depositHistoryParams req) =
        (if req.status = "" then none else some (JValue.str req.status)) := by
  obtain ⟨c, st, et, ps, p, s⟩ := req
  by_cases hc : c = "" <;> by_cases hps : ps = 0 <;> by_cases hs : s = "" <;>
    cases st <;> cases et <;>
      simp [depositHistoryParams, lookupParam, hc, hps, hs]

/-- Key-by-key content of the params map built by `GetWithdrawalHistory`;
same shape as `depositHistoryParams_lookup`. -/
theorem withdrawalHistoryParams_lookup (req : GetWithdrawalHistoryRequest) :
    lookupParam "page" (withdrawalHistoryParams req) = some (JValue.int req.page) ∧
      lookupParam "currency" (withdrawalHistoryParams req) =
        (if req.currency = "" then none else some (JValue.str req.currency)) ∧
      lookupParam "page_size" (withdrawalHistoryParams req) =
        (if req.pageSize = 0 then none else some (JValue.int req.pageSize)) ∧
      lookupParam "start_ts" (withdrawalHistoryParams req) = req.startTs.map JValue.int ∧
      lookupParam "end_ts" (withdrawalHistoryParams req) = req.endTs.map JValue.int ∧
      lookupParam "status" (withdrawalHistoryParams req) =
        (if req.status = "" then none else some (JValue.str req.status)) := by
  obtain ⟨c, st, et, ps, p, s⟩ := req
  by_cases hc : c = "" <;> by_cases hps : ps = 0 <;> by_cases hs : s = "" <;>
    cases st <;> cases et <;>
      simp [withdrawalHistoryParams, lookupParam, hc, hps, hs]

/-- C3: in both history endpoints a PageSize below 0 or above 200 fails
pre-flight with the corresponding `InvalidParameterError` — for every id,
nonce and signature generator, i.e. before and independently of id
generation, signing or any network call — and a PageSize of 0 omits the
`page_size` key from the signed and transmitted params entirely. -/
theorem history_pageSize_bounds (apiKey secretKey : String) (id nonce : Int)
    (sigGen : SignatureRequest → String)
    (dreq : GetDepositHistoryRequest) (wreq : GetWithdrawalHistoryRequest) :
    (dreq.pageSize < 0 →
      getDepositHistoryFlow apiKey secretKey id nonce sigGen dreq =
        .preflight { parameter := "req.PageSize", reason := "cannot be less than 0" }) ∧
    (dreq.pageSize > 200 →
      getDepositHistoryFlow apiKey secretKey id nonce sigGen dreq =
        .preflight { parameter := "req.PageSize", reason := "cannot be greater than 200" }) ∧
    (dreq.pageSize = 0 → ∀ sigReq body,
      getDepositHistoryFlow apiKey secretKey id nonce sigGen dreq = .send sigReq body →
        body.params = some sigReq.params ∧ lookupParam "page_size" sigReq.params = none) ∧
    (wreq.pageSize < 0 →
      getWithdrawalHistoryFlow apiKey secretKey id nonce sigGen wreq =
        .preflight { parameter := "req.PageSize", reason := "cannot be less than 0" }) ∧
    (wreq.pageSize > 200 →
      getWithdrawalHistoryFlow apiKey secretKey id nonce sigGen wreq =
        .preflight { parameter := "req.PageSize", reason := "cannot be greater than 200" }) ∧
    (wreq.pageSize = 0 → ∀ sigReq body,
      getWithdrawalHistoryFlow apiKey secretKey id nonce sigGen wreq = .send sigReq body →
        body.params = some sigReq.params ∧ lookupParam "page_size" sigReq.params = none) := by
  refine ⟨fun h => ?_, fun h => ?_, fun h0 sigReq body heq => ?_,
          fun h => ?_, fun h => ?_, fun h0 sigReq body heq => ?_⟩
  · unfold getDepositHistoryFlow; rw [if_pos h]
  · unfold getDepositHistoryFlow; rw [if_neg (by omega), if_pos h]
  · unfold getDepositHistoryFlow at heq
    rw [if_neg (by omega), if_neg (by omega)] at heq
    cases heq
    refine ⟨rfl, ?_⟩
    have h := (depositHistoryParams_lookup dreq).2.2.1
    rw [if_pos h0] at h
    exact h
  · unfold getWithdrawalHistoryFlow; rw [if_pos h]
  · unfold getWithdrawalHistoryFlow; rw [if_neg (by omega), if_pos h]
  · unfold getWithdrawalHistoryFlow at heq
    rw [if_neg (by omega), if_neg (by omega)] at heq
    cases heq
    refine ⟨rfl, ?_⟩
    have h := (withdrawalHistoryParams_lookup wreq).2.2.1
    rw [if_pos h0] at h
    exact h

theorem history_pageSize_bounds_witness :
    getDepositHistoryFlow "k" "s" 1 2 (fun _ => "") ⟨"", none, none, -1, 0, ""⟩ =
        .preflight { parameter := "req.PageSize", reason := "cannot be less than 0" } ∧
      getWithdrawalHistoryFlow "k" "s" 1 2 (fun _ => "") ⟨"", none, none, 201, 0, ""⟩ =
        .preflight { parameter := "req.PageSize", reason := "cannot be greater than 200" } ∧
      lookupParam "page_size"
          (SignatureRequest.params
            { apiKey := "k", secretKey := "s", id := 1, method := methodGetDepositHistory,
              timestamp := 2, params := [("page", JValue.int 3)] }) = none :=
  ⟨(history_pageSize_bounds "k" "s" 1 2 (fun _ => "")
      ⟨"", none, none, -1, 0, ""⟩ ⟨"", none, none, 0, 0, ""⟩).1 (by norm_num),
   (history_pageSize_bounds "k" "s" 1 2 (fun _ => "")
      ⟨"", none, none, 0, 0, ""⟩ ⟨"", none, none, 201, 0, ""⟩).2.2.2.2.1 (by norm_num),
   ((history_pageSize_bounds "k" "s" 1 2 (fun _ => "")
      ⟨"", none, none, 0, 3, ""⟩ ⟨"", none, none, 0, 0, ""⟩).2.2.1 rfl
      { apiKey := "k", secretKey := "s", id := 1, method := methodGetDepositHistory,
        timestamp := 2, params := [("page", JValue.int 3)] }
      { id := 1, method := methodGetDepositHistory, nonce := 2,
        params := some [("page", JValue.int 3)], signature := "", apiKey := "k",
        version := "" } rfl).2⟩

/-- C6: in `GetDepositHistory` and `CreateWithdrawal`, every field that
entered the signature — id, method, nonce/timestamp, params, api_key — is
transmitted unchanged: the built envelope's fields equal the values handed
to the signature generator, and its signature is exactly the generator's
output on those values. -/
theorem signed_fields_transmitted (apiKey secretKey : String) (id nonce : Int)
    (sigGen : SignatureRequest → String)
    (dreq : GetDepositHistoryRequest) (wreq : CreateWithdrawalRequest) :
    (∀ sigReq body,
      getDepositHistoryFlow apiKey secretKey id nonce sigGen dreq = .send sigReq body →
        body.id = sigReq.id ∧ body.method = sigReq.method ∧
          body.nonce = sigReq.timestamp ∧ body.params = some sigReq.params ∧
          body.apiKey = sigReq.apiKey ∧ body.signature = sigGen sigReq) ∧
    ((createWithdrawalFlow apiKey secretKey id nonce sigGen wreq).2.id =
        (createWithdrawalFlow apiKey secretKey id nonce sigGen wreq).1.id ∧
      (createWithdrawalFlow apiKey secretKey id nonce sigGen wreq).2.method =
        (createWithdrawalFlow apiKey secretKey id nonce sigGen wreq).1.method ∧
      (createWithdrawalFlow apiKey secretKey id nonce sigGen wreq).2.nonce =
        (createWithdrawalFlow apiKey secretKey id nonce sigGen wreq).1.timestamp ∧
      (createWithdrawalFlow apiKey secretKey id nonce sigGen wreq).2.params =
        some (createWithdrawalFlow apiKey secretKey id nonce sigGen wreq).1.params ∧
      (createWithdrawalFlow apiKey secretKey id nonce sigGen wreq).2.apiKey =
        (createWithdrawalFlow apiKey secretKey id nonce sigGen wreq).1.apiKey ∧
      (createWithdrawalFlow apiKey secretKey id nonce sigGen wreq).2.signature =
        sigGen (createWithdrawalFlow apiKey secretKey id nonce sigGen wreq).1) := by
  constructor
  · intro sigReq body heq
    unfold getDepositHistoryFlow at heq
    split_ifs at heq <;> cases heq <;> exact ⟨rfl, rfl, rfl, rfl, rfl, rfl⟩
  · exact ⟨rfl, rfl, rfl, rfl, rfl, rfl⟩

theorem signed_fields_transmitted_witness :
    Request.id
        { id := 1, method := methodGetDepositHistory, nonce := 2,
          params := some [("page", JValue.int 3)], signature := "", apiKey := "k",
          version := "" } =
      SignatureRequest.id
        { apiKey := "k", secretKey := "s", id := 1, method := methodGetDepositHistory,
          timestamp := 2, params := [("page", JValue.int 3)] } ∧
      Request.method
          { id := 1, method := methodGetDepositHistory, nonce := 2,
            params := some [("page", JValue.int 3)], signature := "", apiKey := "k",
            version := "" } =
        SignatureRequest.method
          { apiKey := "k", secretKey := "s", id := 1, method := methodGetDepositHistory,
            timestamp := 2, params := [("page", JValue.int 3)] } ∧
      Request.nonce
          { id := 1, method := methodGetDepositHistory, nonce := 2,
            params := some [("page", JValue.int 3)], signature := "", apiKey := "k",
            version := "" } =
        SignatureRequest.timestamp
          { apiKey := "k", secretKey := "s", id := 1, method := methodGetDepositHistory,
            timestamp := 2, params := [("page", JValue.int 3)] } ∧
      Request.params
          { id := 1, method := methodGetDepositHistory, nonce := 2,
            params := some [("page", JValue.int 3)], signature := "", apiKey := "k",
            version := "" } =
        some (SignatureRequest.params
          { apiKey := "k", secretKey := "s", id := 1, method := methodGetDepositHistory,
            timestamp := 2, params := [("page", JValue.int 3)] }) ∧
      Request.apiKey
          { id := 1, method := methodGetDepositHistory, nonce := 2,
            params := some [("page", JValue.int 3)], signature := "", apiKey := "k",
            version := "" } =
        SignatureRequest.apiKey
          { apiKey := "k", secretKey := "s", id := 1, method := methodGetDepositHistory,
            timestamp := 2, params := [("page", JValue.int 3)] } ∧
      Request.signature
          { id := 1, method := methodGetDepositHistory, nonce := 2,
            params := some [("page", JValue.int 3)], signature := "", apiKey := "k",
            version := "" } = "" :=
  (signed_fields_transmitted "k" "s" 1 2 (fun _ => "")
      ⟨"", none, none, 0, 3, ""⟩ ⟨"", 0, "", "", "", ""⟩).1
    { apiKey := "k", secretKey := "s", id := 1, method := methodGetDepositHistory,
      timestamp := 2, params := [("page", JValue.int 3)] }
    { id := 1, method := methodGetDepositHistory, nonce := 2,
      params := some [("page", JValue.int 3)], signature := "", apiKey := "k",
      version := "" } rfl

/-- C10: in both history endpoints, `page` is always present in the signed
params map (even at Page = 0) while `currency`, `page_size`, `start_ts`,
`end_ts` and `status` are present exactly when their request field is
non-empty / non-zero; hence no params map that omits the `page` key ever
equals a produced one. -/
theorem history_page_always_signed
    (dreq : GetDepositHistoryRequest) (wreq : GetWithdrawalHistoryRequest) :
    lookupParam "page" (depositHistoryParams dreq) = some (JValue.int dreq.page) ∧
      lookupParam "currency" (depositHistoryParams dreq) =
        (if dreq.currency = "" then none else some (JValue.str dreq.currency)) ∧
      lookupParam "page_size" (depositHistoryParams dreq) =
        (if dreq.pageSize = 0 then none else some (JValue.int dreq.pageSize)) ∧
      lookupParam "start_ts" (depositHistoryParams dreq) = dreq.startTs.map JValue.int ∧
      lookupParam "end_ts" (depositHistoryParams dreq) = dreq.endTs.map JValue.int ∧
      lookupParam "status" (depositHistoryParams dreq) =
        (if dreq.status = "" then none else some (JValue.str dreq.status)) ∧
      lookupParam "page" (withdrawalHistoryParams wreq) = some (JValue.int wreq.page) ∧
      lookupParam "currency" (withdrawalHistoryParams wreq) =
        (if wreq.currency = "" then none else some (JValue.str wreq.currency)) ∧
      lookupParam "page_size" (withdrawalHistoryParams wreq) =
        (if wreq.pageSize = 0 then none else some (JValue.int wreq.pageSize)) ∧
      lookupParam "start_ts" (withdrawalHistoryParams wreq) = wreq.startTs.map JValue.int ∧
      lookupParam "end_ts" (withdrawalHistoryParams wreq) = wreq.endTs.map JValue.int ∧
      lookupParam "status" (withdrawalHistoryParams wreq) =
        (if wreq.status = "" then none else some (JValue.str wreq.status)) ∧
      (∀ ps : List (String × JValue),
        lookupParam "page" ps = none → ps ≠ depositHistoryParams dreq) ∧
      (∀ ps : List (String × JValue),
        lookupParam "page" ps = none → ps ≠ withdrawalHistoryParams wreq) := by
  obtain ⟨h1, h2, h3, h4, h5, h6⟩ := depositHistoryParams_lookup dreq
  obtain ⟨g1, g2, g3, g4, g5, g6⟩ := withdrawalHistoryParams_lookup wreq
  refine ⟨h1, h2, h3, h4, h5, h6, g1, g2, g3, g4, g5, g6, ?_, ?_⟩
  · intro ps hps heq
    rw [heq, h1] at hps
    simp at hps
  · intro ps hps heq
    rw [heq, g1] at hps
    simp at hps

/-- `charListLe` is total: one of the two directions always holds. -/
theorem charListLe_total (a b : List Char) :
    charListLe a b = true ∨ charListLe b a = true := by
  induction a generalizing b with
  | nil => left; rfl
  | cons x xs ih =>
    cases b with
    | nil => right; rfl
    | cons y ys =>
      by_cases hxy : x.toNat < y.toNat
      · left
        unfold charListLe
        rw [if_pos hxy]
      · by_cases hyx : y.toNat < x.toNat
        · right
          unfold charListLe
          rw [if_pos hyx]
        · simp only [charListLe]
          rw [if_neg hxy, if_neg hyx, if_neg hyx, if_neg hxy]
          exact ih ys

/-- `strLeByte` is total. -/
theorem strLeByte_total (a b : String) :
    strLeByte a b = true ∨ strLeByte b a = true :=
  charListLe_total a.toList b.toList

/-- Inserting into a list whose adjacent keys are bytewise ascending keeps
them ascending. -/
theorem chain_insertField (p : String × String) (l : List (String × String))
    (h : List.Chain' (fun a b : String × String => strLeByte a.1 b.1 = true) l) :
    List.Chain' (fun a b : String × String => strLeByte a.1 b.1 = true) (insertField p l) := by
  induction l with
  | nil => simp [insertField]
  | cons q rest ih =>
    by_cases hpq : strLeByte p.1 q.1 = true
    · unfold insertField
      rw [if_pos hpq]
      exact List.Chain'.cons hpq h
    · unfold insertField
      rw [if_neg hpq]
      have hqp : strLeByte q.1 p.1 = true := by
        rcases strLeByte_total p.1 q.1 with h' | h'
        · exact absurd h' hpq
        · exact h'
      have hins := ih h.tail
      rw [List.chain'_cons']
      refine ⟨?_, hins⟩
      intro b hb
      cases rest with
      | nil =>
        simp [insertField] at hb
        subst hb
        exact hqp
      | cons r rs =>
        by_cases hpr : strLeByte p.1 r.1 = true
        · simp [insertField, if_pos hpr] at hb
          subst hb
          exact hqp
        · simp [insertField, if_neg hpr] at hb
          subst hb
          exact (List.chain'_cons.mp h).1

/-- The rendered fields emerge from `sortFields` with adjacent keys bytewise
ascending. -/
theorem chain_sortFields (l : List (String × String)) :
    List.Chain' (fun a b : String × String => strLeByte a.1 b.1 = true) (sortFields l) := by
  induction l with
  | nil => simp [sortFields]
  | cons p rest ih =>
    unfold sortFields
    exact chain_insertField p _ ih

/-- C1: canonicalizing `{"currency": "BTC", "page": 0}` yields exactly
`"currencyBTCpage0"` irrespective of insertion order (keys sorted bytewise
ascending, each key immediately followed by its value's plain textual form,
no separator; the sort is ascending on every mapping `sortFields`
processes), and the signing input for method `"private/get-deposit-history"`,
id 1, api_key `"k"`, nonce 1668066540018 is the plain concatenation of
method, id, api key, canonical parameter string and nonce. -/
theorem canonical_params_golden :
    canonParams [("currency", JValue.str "BTC"), ("page", JValue.int 0)] = "currencyBTCpage0" ∧
      canonParams [("page", JValue.int 0), ("currency", JValue.str "BTC")] = "currencyBTCpage0" ∧
      signaturePayload "private/get-deposit-history" 1 "k"
          [("currency", JValue.str "BTC"), ("page", JValue.int 0)] 1668066540018 =
        "private/get-deposit-history" ++ "1" ++ "k" ++ "currencyBTCpage0" ++ "1668066540018" ∧
      ∀ ps : List (String × String),
        List.Chain' (fun a b : String × String => strLeByte a.1 b.1 = true) (sortFields ps) := by
  refine ⟨?_, ?_, ?_, chain_sortFields⟩ <;>
    · simp only [canonParams, signaturePayload, canonValue, renderFields, sortFields, insertField]
      decide

theorem history_page_always_signed_witness :
    lookupParam "page" (depositHistoryParams ⟨"BTC", none, none, 0, 0, ""⟩) =
        some (JValue.int 0) ∧
      ([] : List (String × JValue)) ≠ depositHistoryParams ⟨"BTC", none, none, 0, 0, ""⟩ ∧
      ([] : List (String × JValue)) ≠ withdrawalHistoryParams ⟨"", none, none, 5, 2, "done"⟩ :=
  ⟨(history_page_always_signed ⟨"BTC", none, none, 0, 0, ""⟩
      ⟨"", none, none, 5, 2, "done"⟩).1,
   (history_page_always_signed ⟨"BTC", none, none, 0, 0, ""⟩
      ⟨"", none, none, 5, 2, "done"⟩).2.2.2.2.2.2.2.2.2.2.2.2.1 [] rfl,
   (history_page_always_signed ⟨"BTC", none, none, 0, 0, ""⟩
      ⟨"", none, none, 5, 2, "done"⟩).2.2.2.2.2.2.2.2.2.2.2.2.2 [] rfl⟩
